import Mathlib

/-
Verification of the reactive value/notification primitives of the v library
(properties, one-shot properties, getters, expiry tokens, attacher).

Shallow embedding conventions:
  * a boost::signals2::signal<void()> owned by a property is modelled by the
    number of times it has fired (field fired : Nat); observers read values
    through get(), not through a payload, so the count captures everything the
    contract mentions about the channel;
  * the expiry token signal keeps its registered slots as a list of slot ids
    (registration order preserved) and a fire_log recording each slot
    invocation in dispatch order;
  * std::function<T()> that may be empty is Option (Unit -> T); invoking an
    empty function (bad_function_call) is modelled by Option.none.
-/

namespace v

/-- Embedding of read_only_property<T>: the stored value_ together with the
void() signal_, the latter modelled as the count of times it has fired. -/
structure read_only_property (α : Type) where
  value_ : α
  fired : Nat
deriving DecidableEq

/-- Embedding of read_only_property<T>::notify: fires signal_ once. -/
def read_only_property.notify {α : Type} (p : read_only_property α) :
    read_only_property α :=
  { p with fired := p.fired + 1 }

/-- Embedding of read_only_property<T>::set(value, notify, force):
if (value == value_ && !force) return; value_ = value; if (notify) notify(). -/
def read_only_property.set {α : Type} [DecidableEq α] (p : read_only_property α)
    (value : α) (notify : Bool) (force : Bool) : read_only_property α :=
  if value = p.value_ ∧ force = false then p
  else
    let q : read_only_property α := { p with value_ := value }
    if notify then q.notify else q

/-- Embedding of property_setter<T>::set, which forwards to the private
read_only_property<T>::set of the property it points at. -/
def property_setter.set {α : Type} [DecidableEq α] (p : read_only_property α)
    (value : α) (notify : Bool) (force : Bool) : read_only_property α :=
  read_only_property.set p value notify force

/-- Embedding of property<T>::set, which delegates to its setter_. -/
def property.set {α : Type} [DecidableEq α] (p : read_only_property α)
    (value : α) (notify : Bool) (force : Bool) : read_only_property α :=
  property_setter.set p value notify force

/-- Embedding of property<T>::get (returns the stored value_). -/
def property.get {α : Type} (p : read_only_property α) : α :=
  p.value_

/-- C1: set(v, notify, force) with v equal to the current value and
force = false is a complete no-op (no mutation, no notification); otherwise
the stored value becomes v and the channel fires exactly once if and only if
notify = true. -/
theorem C1_property_set_contract {α : Type} [DecidableEq α]
    (p : read_only_property α) (v : α) (notify force : Bool) :
    (v = property.get p ∧ force = false → property.set p v notify force = p) ∧
    (v ≠ property.get p ∨ force = true →
      property.get (property.set p v notify force) = v ∧
      (property.set p v notify force).fired =
        p.fired + (if notify then 1 else 0)) := by
  constructor
  · intro h
    have hc : v = p.value_ ∧ force = false := ⟨h.1, h.2⟩
    simp [property.set, property_setter.set, read_only_property.set, hc]
  · intro h
    have hcond : ¬ (v = p.value_ ∧ force = false) := by
      rcases h with h | h
      · intro hc
        exact h hc.1
      · intro hc
        rw [h] at hc
        exact absurd hc.2 (by decide)
    simp [property.set, property_setter.set, read_only_property.set,
      property.get, hcond]
    cases notify <;> simp [read_only_property.notify]

/-- Witness for C1 at concrete inputs: setting an equal value without force is
a no-op, and setting a different value stores it and fires once. -/
theorem C1_property_set_contract_w :
    (property.set (⟨5, 0⟩ : read_only_property Int) 5 true false = ⟨5, 0⟩) ∧
    (property.get (property.set (⟨5, 0⟩ : read_only_property Int) 7 true false) = 7 ∧
      (property.set (⟨5, 0⟩ : read_only_property Int) 7 true false).fired =
        0 + (if true then 1 else 0)) :=
  ⟨(C1_property_set_contract ⟨5, 0⟩ 5 true false).1 (by constructor <;> rfl),
   (C1_property_set_contract ⟨5, 0⟩ 7 true false).2 (Or.inl (by decide))⟩

/-- Embedding of one_shot_property<T>: the inherited property state plus the
boolean latch flag_ (initialised false by the constructor). -/
structure one_shot_property (α : Type) where
  value_ : α
  fired : Nat
  flag_ : Bool
deriving DecidableEq

/-- Embedding of the one_shot_property<T>(const T mem value) constructor:
stores the value, signal has never fired, flag_ starts false. -/
def one_shot_property.init {α : Type} (value : α) : one_shot_property α :=
  { value_ := value, fired := 0, flag_ := false }

/-- Embedding of one_shot_property<T>::set(value, notify, force):
if (flag_) return; property<T>::set(value, notify, force); flag_ = true. -/
def one_shot_property.set {α : Type} [DecidableEq α] (p : one_shot_property α)
    (value : α) (notify : Bool) (force : Bool) : one_shot_property α :=
  if p.flag_ then p
  else
    let q := property.set { value_ := p.value_, fired := p.fired } value notify force
    { value_ := q.value_, fired := q.fired, flag_ := true }

/-- Embedding of one_shot_property<T>::operator=(value):
if (flag_) return; property<T>::operator=(value), which calls the setter with
default flags (notify = true, force = false); flag_ = true. -/
def one_shot_property.assign {α : Type} [DecidableEq α] (p : one_shot_property α)
    (value : α) : one_shot_property α :=
  if p.flag_ then p
  else
    let q := property.set { value_ := p.value_, fired := p.fired } value true false
    { value_ := q.value_, fired := q.fired, flag_ := true }

/-- Embedding of one_shot_property<T>::get (inherited from the read-only
property: returns the stored value_). -/
def one_shot_property.get {α : Type} (p : one_shot_property α) : α :=
  p.value_

/-- C5: on a freshly constructed OneShotProperty with value v0, a first
set(v0, notify = true, force = false) leaves the stored value unchanged and
delivers no notification, yet still sets the latch, so every subsequent set or
assignment with any value and any flags is ignored. -/
theorem C5_one_shot_equal_first_write_latches {α : Type} [DecidableEq α] (v0 : α) :
    one_shot_property.get
        (one_shot_property.set (one_shot_property.init v0) v0 true false) = v0 ∧
    (one_shot_property.set (one_shot_property.init v0) v0 true false).fired = 0 ∧
    (one_shot_property.set (one_shot_property.init v0) v0 true false).flag_ = true ∧
    (∀ (v : α) (n f : Bool),
      one_shot_property.set
        (one_shot_property.set (one_shot_property.init v0) v0 true false) v n f =
      one_shot_property.set (one_shot_property.init v0) v0 true false) ∧
    (∀ v : α,
      one_shot_property.assign
        (one_shot_property.set (one_shot_property.init v0) v0 true false) v =
      one_shot_property.set (one_shot_property.init v0) v0 true false) := by
  have h1 : one_shot_property.set (one_shot_property.init v0) v0 true false =
      { value_ := v0, fired := 0, flag_ := true } := by
    simp [one_shot_property.set, one_shot_property.init, property.set,
      property_setter.set, read_only_property.set]
  refine ⟨?_, ?_, ?_, ?_, ?_⟩
  · rw [h1]; rfl
  · rw [h1]
  · rw [h1]
  · intro v n f
    rw [h1]
    simp [one_shot_property.set]
  · intro v
    rw [h1]
    simp [one_shot_property.assign]

/-- C6: on a fresh OneShotProperty, a first set(a) with a different from the
initial value stores a and fires once; a subsequent set(b) with b different
from a is silently ignored: the value stays a and no notification fires. -/
theorem C6_one_shot_first_write_then_ignored {α : Type} [DecidableEq α]
    (v0 a b : α) (ha : a ≠ v0) (hb : b ≠ a) :
    one_shot_property.get
        (one_shot_property.set (one_shot_property.init v0) a true false) = a ∧
    (one_shot_property.set (one_shot_property.init v0) a true false).fired = 1 ∧
    one_shot_property.set
        (one_shot_property.set (one_shot_property.init v0) a true false) b true false =
      one_shot_property.set (one_shot_property.init v0) a true false := by
  have h1 : one_shot_property.set (one_shot_property.init v0) a true false =
      { value_ := a, fired := 1, flag_ := true } := by
    simp [one_shot_property.set, one_shot_property.init, property.set,
      property_setter.set, read_only_property.set, read_only_property.notify, ha]
  refine ⟨?_, ?_, ?_⟩
  · rw [h1]; rfl
  · rw [h1]
  · rw [h1]
    simp [one_shot_property.set]

/-- Witness for C6 at concrete inputs: initial value 0, first write 1,
ignored second write 2. -/
theorem C6_one_shot_first_write_then_ignored_w :
    one_shot_property.get
        (one_shot_property.set (one_shot_property.init (0 : Int)) 1 true false) = 1 ∧
    (one_shot_property.set (one_shot_property.init (0 : Int)) 1 true false).fired = 1 ∧
    one_shot_property.set
        (one_shot_property.set (one_shot_property.init (0 : Int)) 1 true false) 2 true false =
      one_shot_property.set (one_shot_property.init (0 : Int)) 1 true false :=
  C6_one_shot_first_write_then_ignored 0 1 2 (by decide) (by decide)

/-- C9: once the latch flag_ is set, every set(v, notify, force) and every
assignment is a complete no-op, for every value and every combination of the
notify and force flags: the latch check precedes and overrides force. -/
theorem C9_one_shot_latched_frame {α : Type} [DecidableEq α]
    (p : one_shot_property α) (h : p.flag_ = true) (v : α) (n f : Bool) :
    one_shot_property.set p v n f = p ∧ one_shot_property.assign p v = p := by
  constructor
  · simp [one_shot_property.set, h]
  · simp [one_shot_property.assign, h]

/-- Witness for C9 at a concrete latched property, with force = true. -/
theorem C9_one_shot_latched_frame_w :
    one_shot_property.set
        ({ value_ := 3, fired := 1, flag_ := true } : one_shot_property Int)
        9 true true =
      { value_ := 3, fired := 1, flag_ := true } ∧
    one_shot_property.assign
        ({ value_ := 3, fired := 1, flag_ := true } : one_shot_property Int) 9 =
      { value_ := 3, fired := 1, flag_ := true } :=
  C9_one_shot_latched_frame
    ({ value_ := 3, fired := 1, flag_ := true } : one_shot_property Int) rfl 9 true true

/-- Embedding of expiry_token: the expired_ flag, the signal_ with its
registered slots (as slot ids, in registration order), and a log of every
slot invocation the signal has dispatched, in order. -/
structure expiry_token where
  expired_ : Bool
  observers : List Nat
  fire_log : List Nat
deriving DecidableEq

/-- Embedding of the expiry_token constructor: expired_{false}, no slots
registered, nothing fired. -/
def expiry_token.init : expiry_token :=
  { expired_ := false, observers := [], fire_log := [] }

/-- Embedding of signal_(): invokes every connected slot once, in
registration order. -/
def expiry_token.signal_fire (t : expiry_token) : expiry_token :=
  { t with fire_log := t.fire_log ++ t.observers }

/-- Embedding of expiry_token::expire():
if (expired_) return; expired_ = true; signal_(). -/
def expiry_token.expire (t : expiry_token) : expiry_token :=
  if t.expired_ then t
  else expiry_token.signal_fire { t with expired_ := true }

/-- Embedding of expiry_token::is_expired(). -/
def expiry_token.is_expired (t : expiry_token) : Bool :=
  t.expired_

/-- Embedding of expiry_token::observe_expiry(slot): connects the slot to
signal_ (appended in registration order); nothing fires at registration. -/
def expiry_token.observe_expiry (t : expiry_token) (id : Nat) : expiry_token :=
  { t with observers := t.observers ++ [id] }

/-- Embedding of the destructor from the variant with
~expiry_token() { expire(); }. -/
def expiry_token.destruct (t : expiry_token) : expiry_token :=
  t.expire

/-- Operations available on an expiry token after construction. -/
inductive token_op where
  | expire_op : token_op
  | observe_op (id : Nat) : token_op
  | destruct_op : token_op
deriving DecidableEq

/-- Applies one token operation. -/
def token_step (t : expiry_token) : token_op → expiry_token
  | token_op.expire_op => t.expire
  | token_op.observe_op id => t.observe_expiry id
  | token_op.destruct_op => t.destruct

/-- Applies a sequence of token operations, left to right. -/
def token_run (t : expiry_token) : List token_op → expiry_token
  | [] => t
  | op :: ops => token_run (token_step t op) ops

theorem expire_sets_expired (t : expiry_token) : (t.expire).expired_ = true := by
  by_cases h : t.expired_
  · simp [expiry_token.expire, h]
  · simp [expiry_token.expire, h, expiry_token.signal_fire]

theorem token_step_frozen (t : expiry_token) (op : token_op)
    (h : t.expired_ = true) :
    (token_step t op).expired_ = true ∧ (token_step t op).fire_log = t.fire_log := by
  cases op with
  | expire_op => simp [token_step, expiry_token.expire, h]
  | observe_op id => simp [token_step, expiry_token.observe_expiry, h]
  | destruct_op => simp [token_step, expiry_token.destruct, expiry_token.expire, h]

theorem token_run_frozen (ops : List token_op) (t : expiry_token)
    (h : t.expired_ = true) :
    (token_run t ops).expired_ = true ∧ (token_run t ops).fire_log = t.fire_log := by
  induction ops generalizing t with
  | nil => exact ⟨h, rfl⟩
  | cons op ops ih =>
    obtain ⟨h1, h2⟩ := token_step_frozen t op h
    obtain ⟨h3, h4⟩ := ih (token_step t op) h1
    exact ⟨h3, h4.trans h2⟩

/-- C2: destroying a still non-expired token performs the false-to-true
transition and dispatches the channel to every registered observer, each
invoked exactly once (the fire log is extended by exactly the registration
list, so every individual registration gains exactly one invocation). -/
theorem C2_destructor_expires_and_notifies (t : expiry_token)
    (h : t.is_expired = false) :
    (t.destruct).expired_ = true ∧
    (t.destruct).fire_log = t.fire_log ++ t.observers ∧
    ∀ id : Nat, ((t.destruct).fire_log).count id =
      (t.fire_log).count id + (t.observers).count id := by
  have h0 : t.expired_ = false := h
  refine ⟨expire_sets_expired t, ?_, ?_⟩
  · simp [expiry_token.destruct, expiry_token.expire, h0, expiry_token.signal_fire]
  · intro id
    simp [expiry_token.destruct, expiry_token.expire, h0, expiry_token.signal_fire,
      List.count_append]

/-- Witness for C2: a non-expired token with one registered observer is
expired by destruction and that observer fires exactly once. -/
theorem C2_destructor_expires_and_notifies_w :
    (expiry_token.destruct { expired_ := false, observers := [7], fire_log := [] }).expired_ = true ∧
    (expiry_token.destruct { expired_ := false, observers := [7], fire_log := [] }).fire_log =
      [] ++ [7] ∧
    ∀ id : Nat,
      ((expiry_token.destruct { expired_ := false, observers := [7], fire_log := [] }).fire_log).count id =
        ([] : List Nat).count id + ([7] : List Nat).count id :=
  C2_destructor_expires_and_notifies
    { expired_ := false, observers := [7], fire_log := [] } rfl

/-- C3: on a non-expired token, calling expire() n times (n at least 1) is the
same as calling it once: the first call sets the expired flag and dispatches
each registered observer exactly once; every further call changes nothing. -/
theorem C3_expire_idempotent (t : expiry_token) (n : Nat)
    (hn : 1 ≤ n) (h : t.is_expired = false) :
    token_run t (List.replicate n token_op.expire_op) = t.expire ∧
    (t.expire).expired_ = true ∧
    (t.expire).fire_log = t.fire_log ++ t.observers ∧
    ∀ id : Nat, ((t.expire).fire_log).count id =
      (t.fire_log).count id + (t.observers).count id := by
  have h0 : t.expired_ = false := h
  have hrun : ∀ (m : Nat) (s : expiry_token), s.expired_ = true →
      token_run s (List.replicate m token_op.expire_op) = s := by
    intro m
    induction m with
    | zero => intro s _; rfl
    | succ k ih =>
      intro s hs
      have hstep : token_step s token_op.expire_op = s := by
        simp [token_step, expiry_token.expire, hs]
      simp only [List.replicate_succ, token_run, hstep]
      exact ih s hs
  refine ⟨?_, expire_sets_expired t, ?_, ?_⟩
  · obtain ⟨k, rfl⟩ : ∃ k, n = k + 1 := ⟨n - 1, (Nat.succ_pred_eq_of_pos hn).symm⟩
    simp only [List.replicate_succ, token_run, token_step]
    exact hrun k t.expire (expire_sets_expired t)
  · simp [expiry_token.expire, h0, expiry_token.signal_fire]
  · intro id
    simp [expiry_token.expire, h0, expiry_token.signal_fire, List.count_append]

/-- Witness for C3: expiring a fresh token with two observers three times
fires each observer exactly once. -/
theorem C3_expire_idempotent_w :
    token_run { expired_ := false, observers := [1, 2], fire_log := [] }
        (List.replicate 3 token_op.expire_op) =
      expiry_token.expire { expired_ := false, observers := [1, 2], fire_log := [] } ∧
    (expiry_token.expire { expired_ := false, observers := [1, 2], fire_log := [] }).expired_ = true ∧
    (expiry_token.expire { expired_ := false, observers := [1, 2], fire_log := [] }).fire_log =
      [] ++ [1, 2] ∧
    ∀ id : Nat,
      ((expiry_token.expire { expired_ := false, observers := [1, 2], fire_log := [] }).fire_log).count id =
        ([] : List Nat).count id + ([1, 2] : List Nat).count id :=
  C3_expire_idempotent { expired_ := false, observers := [1, 2], fire_log := [] }
    3 (by decide) rfl

/-- C4: a slot registered via observe_expiry after the token has expired does
not fire at registration time, and no later sequence of operations on the
token (expire, observe_expiry, destruction) ever invokes it. -/
theorem C4_observe_after_expiry_never_fires (t : expiry_token) (id : Nat)
    (ops : List token_op) (h : t.is_expired = true) (hid : id ∉ t.fire_log) :
    (t.observe_expiry id).fire_log = t.fire_log ∧
    id ∉ (token_run (t.observe_expiry id) ops).fire_log := by
  have h0 : t.expired_ = true := h
  have hobs : (t.observe_expiry id).expired_ = true := h0
  obtain ⟨_, hlog⟩ := token_run_frozen ops (t.observe_expiry id) hobs
  refine ⟨rfl, ?_⟩
  rw [hlog]
  exact hid

/-- Witness for C4: registering slot 5 on an already-expired token, then
expiring, destroying and registering more slots, never invokes slot 5. -/
theorem C4_observe_after_expiry_never_fires_w :
    (expiry_token.observe_expiry { expired_ := true, observers := [1], fire_log := [1] } 5).fire_log =
      [1] ∧
    5 ∉ (token_run
        (expiry_token.observe_expiry { expired_ := true, observers := [1], fire_log := [1] } 5)
        [token_op.expire_op, token_op.destruct_op, token_op.observe_op 9,
          token_op.expire_op]).fire_log :=
  C4_observe_after_expiry_never_fires
    { expired_ := true, observers := [1], fire_log := [1] } 5
    [token_op.expire_op, token_op.destruct_op, token_op.observe_op 9,
      token_op.expire_op] rfl (by decide)

/-- C10: is_expired is monotone: once a token reports expired, it still
reports expired after every further sequence of operations (expire,
observe_expiry, destruction with its dispatch); nothing resets the flag. -/
theorem C10_expired_monotone (t : expiry_token) (ops : List token_op)
    (h : t.is_expired = true) :
    (token_run t ops).is_expired = true :=
  (token_run_frozen ops t h).1

/-- Witness for C10: an expired token stays expired through expire,
observation and destruction. -/
theorem C10_expired_monotone_w :
    (token_run { expired_ := true, observers := [], fire_log := [] }
        [token_op.observe_op 3, token_op.expire_op, token_op.destruct_op]).is_expired = true :=
  C10_expired_monotone { expired_ := true, observers := [], fire_log := [] }
    [token_op.observe_op 3, token_op.expire_op, token_op.destruct_op] rfl

/-- Embedding of getter<T>: the wrapped std::function<T()> getter_, which may
be empty (Option.none), together with the signal_ fire count. -/
structure getter (α : Type) where
  getter_ : Option (Unit → α)
  fired : Nat

/-- Embedding of getter_observer<T>: the copied getter_ function. The
connector_ closure only re-exposes the signal and plays no role in the
boolean conversion or in get(). -/
structure getter_observer (α : Type) where
  getter_ : Option (Unit → α)

/-- Embedding of getter_observer<T>::operator bool():
return bool(getter_), i.e. whether a function has been bound. -/
def getter_observer.toBool {α : Type} (g : getter_observer α) : Bool :=
  g.getter_.isSome

/-- Embedding of getter_observer<T>::get(): invokes getter_(); invoking an
empty std::function is the invocation-on-empty failure, modelled as none. -/
def getter_observer.get {α : Type} (g : getter_observer α) : Option α :=
  g.getter_.map (fun f => f ())

/-- Embedding of getter<T>::observer(): builds a getter_observer from
getter_ (plus the connector closure over signal_, irrelevant here). -/
def getter.observer {α : Type} (g : getter α) : getter_observer α :=
  { getter_ := g.getter_ }

/-- C7: the boolean conversion of a Getter (exposed on its getter_observer)
is true exactly when a function has been bound, and whenever it reports
false, get() is the invocation-on-empty failure — so a caller can detect an
unbound Getter from the boolean conversion without calling get(). -/
theorem C7_getter_bool_reports_bound {α : Type} (g : getter α) :
    ((g.observer).toBool = true ↔ (g.getter_).isSome = true) ∧
    ((g.observer).toBool = false → getter_observer.get (g.observer) = Option.none) := by
  constructor
  · constructor
    · intro h; exact h
    · intro h; exact h
  · intro h
    cases hg : g.getter_ with
    | none => simp [getter_observer.get, getter.observer, hg]
    | some f =>
      exfalso
      have : (g.observer).toBool = true := by
        simp [getter_observer.toBool, getter.observer, hg]
      rw [this] at h
      exact absurd h (by decide)

/-- Witness for C7: an unbound getter converts to false and its get() is the
empty-invocation failure; a bound getter converts to true. -/
theorem C7_getter_bool_reports_bound_w :
    (((⟨Option.none, 0⟩ : getter Nat).observer).toBool = false →
      getter_observer.get ((⟨Option.none, 0⟩ : getter Nat).observer) = Option.none) ∧
    getter_observer.get ((⟨Option.none, 0⟩ : getter Nat).observer) = Option.none ∧
    ((⟨Option.some (fun _ => 4), 0⟩ : getter Nat).observer).toBool = true :=
  ⟨(C7_getter_bool_reports_bound (⟨Option.none, 0⟩ : getter Nat)).2,
   (C7_getter_bool_reports_bound (⟨Option.none, 0⟩ : getter Nat)).2 rfl,
   (C7_getter_bool_reports_bound
      (⟨Option.some (fun _ => 4), 0⟩ : getter Nat)).1.mpr rfl⟩

/-- Owner hook invocations recorded by the attacher protocol: the attach tag
or the detach tag, each carrying the attached object (by its identity key). -/
inductive hook_event where
  | att (key : Nat)
  | det (key : Nat)
deriving DecidableEq

/-- Embedding of the attacher scenario: each attachable object (named by its
identity key) carries an expiry token flag; attached_objects_ holds the keys
of the stored scoped connections; update_log records every owner hook
invocation in order. -/
structure attacher_world where
  token_expired : Nat → Bool
  attached_objects_ : List Nat
  update_log : List hook_event

/-- Embedding of attacher<T>::operator<<(object) / attach(object): invoke the
owner attach hook with the object, then store the expiry subscription under
the object identity key (map assignment: a fresh entry unless the key is
already present). -/
def attacher_world.attach (w : attacher_world) (x : Nat) : attacher_world :=
  { w with
    update_log := w.update_log ++ [hook_event.att x],
    attached_objects_ :=
      if x ∈ w.attached_objects_ then w.attached_objects_
      else w.attached_objects_ ++ [x] }

/-- Embedding of expiring an attached object: its expiry_token::expire runs
(no-op when already expired); on the genuine transition the token signal
fires, and the on_expired closure registered by the attacher — live exactly
when the scoped connection is still stored — erases the map entry and then
invokes the owner detach hook with the object. -/
def attacher_world.expire_object (w : attacher_world) (x : Nat) : attacher_world :=
  if w.token_expired x then w
  else
    let w1 : attacher_world :=
      { w with token_expired := fun k => if k = x then true else w.token_expired k }
    if x ∈ w1.attached_objects_ then
      { w1 with
        attached_objects_ := w1.attached_objects_.filter (fun k => k ≠ x),
        update_log := w1.update_log ++ [hook_event.det x] }
    else w1

/-- C8: attaching a not-yet-attached, non-expired object X invokes the owner
attach hook exactly once with X; when X then expires, the detach hook is
invoked exactly once with X and the identity key of X is absent from the
attached-objects registry. -/
theorem C8_attacher_round_trip (w : attacher_world) (x : Nat)
    (hexp : w.token_expired x = false) (hmem : x ∉ w.attached_objects_) :
    ((w.attach x).expire_object x).update_log =
      w.update_log ++ [hook_event.att x, hook_event.det x] ∧
    x ∉ ((w.attach x).expire_object x).attached_objects_ ∧
    ((w.attach x).expire_object x).token_expired x = true := by
  have hatt : (w.attach x).attached_objects_ = w.attached_objects_ ++ [x] := by
    simp [attacher_world.attach, hmem]
  have hmem1 : x ∈ (w.attach x).attached_objects_ := by
    rw [hatt]; simp
  have hexp1 : (w.attach x).token_expired x = false := hexp
  refine ⟨?_, ?_, ?_⟩
  · simp [attacher_world.expire_object, attacher_world.attach, hexp, hmem]
  · simp only [attacher_world.expire_object, attacher_world.attach]
    simp only [hmem, if_false, hexp, Bool.false_eq_true]
    simp only [if_false, List.mem_append, List.mem_singleton, or_true, if_true]
    intro hx
    have := List.of_mem_filter hx
    simp at this
  · simp [attacher_world.expire_object, attacher_world.attach, hexp, hmem]

/-- Witness for C8: attaching object 4 to an empty attacher and expiring it
logs exactly one attach hook call and one detach hook call for 4 and leaves
the registry without 4. -/
theorem C8_attacher_round_trip_w :
    (((⟨fun _ => false, [], []⟩ : attacher_world).attach 4).expire_object 4).update_log =
      [] ++ [hook_event.att 4, hook_event.det 4] ∧
    4 ∉ (((⟨fun _ => false, [], []⟩ : attacher_world).attach 4).expire_object 4).attached_objects_ ∧
    (((⟨fun _ => false, [], []⟩ : attacher_world).attach 4).expire_object 4).token_expired 4 = true :=
  C8_attacher_round_trip (⟨fun _ => false, [], []⟩ : attacher_world) 4 rfl
    (by simp)

end v
